import Mathlib

/-!
Verification of the DRONEFIX2 MAVLink core (src/mavlink_manager.py and
src/mission_upload.py) against its natural-language specification.

Shallow embedding conventions:
- Python floats are modelled as rationals (ℚ); all float literals of the
  source (0.04, 57.2958, 1e7, ...) are exact in ℚ.
- MAVLink messages received from the transport are the inductive `Msg`;
  messages sent on the transport are the inductive `Sent`.  The transport
  inbound stream is a `List Msg`; `recv_match(type=..., blocking=True,
  timeout=...)` is modelled by `recvMatch`: it consumes messages from the
  stream until one matches the type filter (pymavlink discards the
  non-matching ones it reads) and returns `none` on timeout, in which case
  every message that arrived inside the window has been consumed.
- Numeric MAVLink enum constants come from the external pymavlink library
  and carry their standard wire values.
- Qt signal emissions (`...progress.emit`) are modelled as an output list
  of progress strings; `time.sleep` has no observable effect in the model.
-/

namespace DroneFix

/-- Standard MAVLink enum value MAV_CMD_NAV_WAYPOINT (pymavlink). -/
def MAV_CMD_NAV_WAYPOINT : Nat := 16

/-- Standard MAVLink enum value MAV_CMD_NAV_RETURN_TO_LAUNCH (pymavlink). -/
def MAV_CMD_NAV_RETURN_TO_LAUNCH : Nat := 20

/-- Standard MAVLink enum value MAV_CMD_NAV_TAKEOFF (pymavlink). -/
def MAV_CMD_NAV_TAKEOFF : Nat := 22

/-- Standard MAVLink enum value MAV_FRAME_GLOBAL_RELATIVE_ALT (pymavlink). -/
def MAV_FRAME_GLOBAL_RELATIVE_ALT : Nat := 3

/-- Standard MAVLink enum value MAV_MISSION_ACCEPTED (pymavlink). -/
def MAV_MISSION_ACCEPTED : Nat := 0

/-- Standard MAVLink flag MAV_MODE_FLAG_SAFETY_ARMED (pymavlink). -/
def MAV_MODE_FLAG_SAFETY_ARMED : Nat := 128

/-- Inbound MAVLink messages, with the fields the core reads.
`sysStatus` carries battery_remaining, voltage_battery (mV),
current_battery (cA); `batteryStatus` carries the cell voltage array (mV),
current_battery (cA) and battery_remaining. -/
inductive Msg where
  | missionAck (ackType : Nat)
  | missionRequest (seq : Nat)
  | missionCount (count : Nat)
  | globalPositionInt (lat lon relAlt : Int)
  | attitude (pitch roll yaw : ℚ)
  | sysStatus (batteryRemaining voltageBattery currentBattery : Int)
  | batteryStatus (voltages : List Int) (currentBattery batteryRemaining : Int)
  | heartbeat (baseMode : Nat)
deriving DecidableEq, Repr

/-- Type filter: is this a MISSION_ACK message. -/
def Msg.isMissionAck : Msg → Bool
  | .missionAck _ => true
  | _ => false

/-- Type filter: is this a MISSION_REQUEST message. -/
def Msg.isMissionRequest : Msg → Bool
  | .missionRequest _ => true
  | _ => false

/-- Type filter: is this a MISSION_COUNT message. -/
def Msg.isMissionCount : Msg → Bool
  | .missionCount _ => true
  | _ => false

/-- Model of pymavlink `recv_match(type=..., blocking=True, timeout=...)`:
consume messages from the inbound stream until the first one satisfying
the filter; on timeout (no match in the window) all arrived messages have
been consumed and `none` is returned. -/
def recvMatch (p : Msg → Bool) : List Msg → Option Msg × List Msg
  | [] => (none, [])
  | m :: rest => if p m then (some m, rest) else recvMatch p rest

/-- Messages the uploader writes to the transport, with the fields of the
corresponding pymavlink send calls that the protocol logic determines. -/
inductive Sent where
  | missionClearAll
  | missionCount (count : Nat)
  | missionItem (seq frame command current autocontinue : Nat)
      (param1 param2 param3 param4 x y z : ℚ)
  | missionRequestList
deriving DecidableEq, Repr

/-- One mission item as built by `MissionUploader._build_mission_items`
(a Python dict with keys command, param1..param4, x, y, z, frame). -/
structure MissionItem where
  command : Nat
  param1 : ℚ
  param2 : ℚ
  param3 : ℚ
  param4 : ℚ
  x : ℚ
  y : ℚ
  z : ℚ
  frame : Nat
deriving DecidableEq, Repr

/-- The Takeoff item appended by `_build_mission_items` when add_takeoff. -/
def takeoffItem : MissionItem :=
  { command := MAV_CMD_NAV_TAKEOFF
    param1 := 0, param2 := 0, param3 := 0, param4 := 0
    x := 0, y := 0, z := 10
    frame := MAV_FRAME_GLOBAL_RELATIVE_ALT }

/-- The Waypoint item appended by `_build_mission_items` for (lat, lon, alt). -/
def waypointItem (lat lon alt : ℚ) : MissionItem :=
  { command := MAV_CMD_NAV_WAYPOINT
    param1 := 0, param2 := 2, param3 := 0, param4 := 0
    x := lat, y := lon, z := alt
    frame := MAV_FRAME_GLOBAL_RELATIVE_ALT }

/-- The ReturnToLaunch item appended by `_build_mission_items` when add_rtl. -/
def rtlItem : MissionItem :=
  { command := MAV_CMD_NAV_RETURN_TO_LAUNCH
    param1 := 0, param2 := 0, param3 := 0, param4 := 0
    x := 0, y := 0, z := 0
    frame := MAV_FRAME_GLOBAL_RELATIVE_ALT }

/-- `MissionUploader._build_mission_items`: takeoff item when requested,
then one waypoint item per (lat, lon, alt), then RTL when requested. -/
def buildMissionItems (waypoints : List (ℚ × ℚ × ℚ))
    (addTakeoff addRtl : Bool) : List MissionItem :=
  (if addTakeoff then [takeoffItem] else []) ++
    waypoints.map (fun w => waypointItem w.1 w.2.1 w.2.2) ++
    (if addRtl then [rtlItem] else [])

/-- Result of one handshake step: success flag, remaining inbound stream,
messages written to the transport by the step. -/
structure StepOut where
  ok : Bool
  inbound : List Msg
  sent : List Sent
deriving DecidableEq, Repr

/-- `MissionUploader._clear_mission`: send MISSION_CLEAR_ALL, then
`recv_match(type=MISSION_ACK)` on the connection; succeed iff a
MISSION_ACK arrived and its type is MAV_MISSION_ACCEPTED. -/
def clearMission (inbound : List Msg) : StepOut :=
  let r := recvMatch Msg.isMissionAck inbound
  let ok := match r.1 with
    | some (Msg.missionAck t) => t == MAV_MISSION_ACCEPTED
    | _ => false
  ⟨ok, r.2, [Sent.missionClearAll]⟩

/-- `MissionUploader._send_mission_count`: send MISSION_COUNT, then
`recv_match(type=MISSION_REQUEST)`; succeed iff some request arrived. -/
def sendMissionCount (count : Nat) (inbound : List Msg) : StepOut :=
  let r := recvMatch Msg.isMissionRequest inbound
  ⟨r.1.isSome, r.2, [Sent.missionCount count]⟩

/-- The MISSION_ITEM write performed by `_send_mission_item` for sequence
`seq`: current = 1 iff seq = 0, autocontinue = 1, remaining fields from
the built item. -/
def sentItemMsg (seq : Nat) (item : MissionItem) : Sent :=
  Sent.missionItem seq item.frame item.command (if seq == 0 then 1 else 0) 1
    item.param1 item.param2 item.param3 item.param4 item.x item.y item.z

/-- `MissionUploader._send_mission_item`: send the item, then wait for the
next MISSION_REQUEST when seq < total-1, else for a MISSION_ACK; succeed
iff a message of the awaited type arrived (its sequence or ack status is
not inspected). -/
def sendMissionItemStep (seq : Nat) (item : MissionItem) (totalItems : Nat)
    (inbound : List Msg) : StepOut :=
  let r := if seq < totalItems - 1 then recvMatch Msg.isMissionRequest inbound
    else recvMatch Msg.isMissionAck inbound
  ⟨r.1.isSome, r.2, [sentItemMsg seq item]⟩

/-- Output of the per-item upload loop: the failing sequence number if a
step failed, the remaining inbound stream, the transport writes, and the
progress strings emitted. -/
structure LoopOut where
  failedSeq : Option Nat
  inbound : List Msg
  sent : List Sent
  progress : List String
deriving DecidableEq, Repr

/-- Step 3 of `upload_mission`: `for seq, item in enumerate(mission_items)`,
emitting progress, sending each item, and aborting with the failing seq
when a step fails. -/
def sendItemsFrom (totalItems : Nat) : Nat → List MissionItem → List Msg → LoopOut
  | _, [], inbound => ⟨none, inbound, [], []⟩
  | seq, item :: rest, inbound =>
      let prog := "Uploading waypoint " ++ toString (seq + 1) ++ "/" ++
        toString totalItems
      let st := sendMissionItemStep seq item totalItems inbound
      if st.ok then
        let r := sendItemsFrom totalItems (seq + 1) rest st.inbound
        ⟨r.failedSeq, r.inbound, st.sent ++ r.sent, prog :: r.progress⟩
      else ⟨some seq, st.inbound, st.sent, [prog]⟩

/-- `MissionUploader._verify_mission`: send MISSION_REQUEST_LIST, then
`recv_match(type=MISSION_COUNT)`; succeed iff a count arrived and equals
the expected item count. -/
def verifyMission (expectedCount : Nat) (inbound : List Msg) : StepOut :=
  let r := recvMatch Msg.isMissionCount inbound
  let ok := match r.1 with
    | some (Msg.missionCount c) => c == expectedCount
    | _ => false
  ⟨ok, r.2, [Sent.missionRequestList]⟩

/-- The `MavlinkManager` state an upload can observe or change: the
`connected` flag (`upload_mission` reads it and never writes it). -/
structure Manager where
  connected : Bool
deriving DecidableEq, Repr

/-- Full result of `MissionUploader.upload_mission`: the (success, message)
pair it returns, the manager state afterwards, the messages written to the
transport, and the progress strings emitted. -/
structure UploadOut where
  result : Bool × String
  manager : Manager
  sent : List Sent
  progress : List String
deriving DecidableEq, Repr

/-- `MissionUploader.upload_mission`: check the connected flag, build the
items, then clear → count → per-item loop → verify, aborting with the
message of the first failing step. -/
def uploadMission (mgr : Manager) (waypoints : List (ℚ × ℚ × ℚ))
    (addTakeoff addRtl : Bool) (inbound : List Msg) : UploadOut :=
  if !mgr.connected then ⟨(false, "Not connected to drone"), mgr, [], []⟩
  else
    let items := buildMissionItems waypoints addTakeoff addRtl
    let prog0 := ["Clearing existing mission..."]
    let c := clearMission inbound
    if !c.ok then
      ⟨(false, "Failed to clear existing mission"), mgr, c.sent, prog0⟩
    else
      let prog1 := prog0 ++
        ["Sending mission count: " ++ toString items.length ++ " items"]
      let sc := sendMissionCount items.length c.inbound
      if !sc.ok then
        ⟨(false, "Failed to send mission count"), mgr, c.sent ++ sc.sent, prog1⟩
      else
        let lo := sendItemsFrom items.length 0 items sc.inbound
        match lo.failedSeq with
        | some k =>
            ⟨(false, "Failed to upload waypoint " ++ toString k), mgr,
              c.sent ++ sc.sent ++ lo.sent, prog1 ++ lo.progress⟩
        | none =>
            let prog2 := prog1 ++ lo.progress ++ ["Verifying mission..."]
            let v := verifyMission items.length lo.inbound
            if !v.ok then
              ⟨(false, "Mission verification failed"), mgr,
                c.sent ++ sc.sent ++ lo.sent ++ v.sent, prog2⟩
            else
              ⟨(true, "Successfully uploaded " ++ toString items.length ++
                  " waypoints"), mgr,
                c.sent ++ sc.sent ++ lo.sent ++ v.sent,
                prog2 ++ ["Mission uploaded successfully!"]⟩

/-- EMA smoothing factor, `MavlinkManager._EMA_ALPHA = 0.04` (exact in ℚ). -/
def EMA_ALPHA : ℚ := 0.04

/-- `MavlinkManager._ema`: when the previously published value is the zero
sentinel the raw sample is taken verbatim, else an exponential moving
average with factor `EMA_ALPHA` is applied. -/
def ema (oldValue newValue : ℚ) : ℚ :=
  if oldValue = 0 then newValue
  else oldValue + EMA_ALPHA * (newValue - oldValue)

/-- The Telemetry Store: the `MavlinkManager.telemetry` dict together with
the private `_has_battery_status` arbitration flag.  The flight-mode
string produced by the external `mavutil.mode_string_v10` is represented
by the raw HEARTBEAT base_mode word (no claim inspects the mode text). -/
structure Telemetry where
  lat : ℚ
  lon : ℚ
  alt : ℚ
  pitch : ℚ
  roll : ℚ
  yaw : ℚ
  battery : Int
  voltage : ℚ
  current : ℚ
  mode : Nat
  armed : Bool
  hasBatteryStatus : Bool
deriving DecidableEq, Repr

/-- Initial telemetry dict created in `MavlinkManager.__init__`. -/
def initTelemetry : Telemetry :=
  { lat := 0, lon := 0, alt := 0, pitch := 0, roll := 0, yaw := 0
    battery := 0, voltage := 0, current := 0, mode := 0
    armed := false, hasBatteryStatus := false }

/-- One iteration of the body of `MavlinkManager._telemetry_loop` applied
to a received message: the per-message-type update of the Telemetry Store.
Mission-protocol messages fall through every branch and leave the store
unchanged. -/
def telemetryStep (t : Telemetry) (m : Msg) : Telemetry :=
  match m with
  | .globalPositionInt lat lon relAlt =>
      { t with lat := (lat : ℚ) / 1e7, lon := (lon : ℚ) / 1e7,
               alt := (relAlt : ℚ) / 1000 }
  | .attitude pitch roll yaw =>
      { t with pitch := pitch * 57.2958, roll := roll * 57.2958,
               yaw := yaw * 57.2958 }
  | .sysStatus br vb cb =>
      let t1 := if t.hasBatteryStatus then t
        else if br ≠ -1 ∧ br ≠ 0 then
          { t with battery := max 0 (min 100 br) }
        else t
      if t1.hasBatteryStatus then t1
      else
        let t2 := if (vb ≠ -1 ∧ vb ≠ 0 ∧ vb ≠ 65535) ∧ vb < 65535 then
            { t1 with voltage := ema t1.voltage ((vb : ℚ) / 1000) }
          else t1
        if cb ≠ -1 ∧ cb < 65535 then
          { t2 with current := ema t2.current ((cb : ℚ) / 100) }
        else t2
  | .batteryStatus voltages cb br =>
      let t0 := { t with hasBatteryStatus := true }
      let cells := voltages.filter (fun v => decide (0 < v ∧ v < 65535))
      let t1 := if cells ≠ [] then
          { t0 with voltage := ema t0.voltage ((cells.sum : ℚ) / 1000) }
        else t0
      let t2 := if cb ≠ -1 ∧ 0 ≤ cb ∧ cb < 65535 then
          { t1 with current := ema t1.current ((cb : ℚ) / 100) }
        else t1
      if br ≠ -1 then { t2 with battery := max 0 (min 100 br) } else t2
  | .heartbeat bm =>
      { t with armed := decide (bm &&& MAV_MODE_FLAG_SAFETY_ARMED ≠ 0),
               mode := bm }
  | .missionAck _ => t
  | .missionRequest _ => t
  | .missionCount _ => t

/-- The telemetry loop applied to a sequence of received messages. -/
def runTelemetry (t : Telemetry) (msgs : List Msg) : Telemetry :=
  msgs.foldl telemetryStep t

/-- One iteration of `_telemetry_loop` at the transport level: consume the
head of the inbound stream and fold it into the Telemetry Store. -/
def telemetryLoopIter (t : Telemetry) (inbound : List Msg) :
    Telemetry × List Msg :=
  match inbound with
  | [] => (t, [])
  | m :: rest => (telemetryStep t m, rest)

/-- Outcome of one connection attempt in `MavlinkManager.connect`: the
open-plus-wait_heartbeat sequence succeeds, raises PermissionError, or
raises some other exception. -/
inductive AttemptOutcome where
  | success
  | permError (e : String)
  | otherError (e : String)
deriving DecidableEq, Repr

/-- An attempt outcome that raised (did not connect). -/
def AttemptOutcome.isFailure : AttemptOutcome → Bool
  | .success => false
  | .permError _ => true
  | .otherError _ => true

/-- The diagnostic returned when the last attempt raised PermissionError. -/
def permDiagnostic (port : String) : String :=
  "Port " ++ port ++ " is already in use or requires admin access.\n\n" ++
  "Try these solutions:\n" ++
  "1. Close Mission Planner, QGroundControl, or any other GCS software\n" ++
  "2. Unplug and reconnect the telemetry device\n" ++
  "3. Try a different USB port\n" ++
  "4. Run this application as Administrator (right-click → Run as admin)"

/-- Observables of `MavlinkManager.connect`: the returned (success,
message) pair (`none` models the implicit Python `None` when the retry
loop body never runs), the connected flag it leaves behind when it sets
one, the number of open-plus-heartbeat attempts made, and the list of
inter-attempt sleep durations in seconds. -/
structure ConnectOut where
  result : Option (Bool × String)
  connectedFlag : Option Bool
  attempts : Nat
  delays : List Nat
deriving DecidableEq, Repr

/-- `MavlinkManager.connect` from a given attempt index: the
`for attempt in range(retries)` loop, where `outcome n` is what attempt
`n` does.  A failure before the last attempt sleeps 2 s and continues; a
PermissionError on the last attempt returns the port diagnostic; another
exception on the last attempt returns a message naming the retry count. -/
def connectFrom (port : String) (retries : Nat) (outcome : Nat → AttemptOutcome)
    (attempt : Nat) : ConnectOut :=
  if attempt < retries then
    match outcome attempt with
    | .success =>
        ⟨some (true, "Connected successfully"), some true, 1, []⟩
    | .permError _ =>
        if attempt < retries - 1 then
          let r := connectFrom port retries outcome (attempt + 1)
          ⟨r.result, r.connectedFlag, r.attempts + 1, 2 :: r.delays⟩
        else ⟨some (false, permDiagnostic port), some false, 1, []⟩
    | .otherError e =>
        if attempt < retries - 1 then
          let r := connectFrom port retries outcome (attempt + 1)
          ⟨r.result, r.connectedFlag, r.attempts + 1, 2 :: r.delays⟩
        else
          ⟨some (false, "Connection failed after " ++ toString retries ++
              " attempts: " ++ e), some false, 1, []⟩
  else ⟨none, none, 0, []⟩
termination_by retries - attempt
decreasing_by all_goals omega

/-- `MavlinkManager.connect(port, baudrate, retries)` (the baudrate only
parametrises the external open call, which `outcome` abstracts). -/
def connect (port : String) (retries : Nat)
    (outcome : Nat → AttemptOutcome) : ConnectOut :=
  connectFrom port retries outcome 0

/-- The sequence number of a transmitted MISSION_ITEM, `none` for other
transport writes. -/
def Sent.itemSeq : Sent → Option Nat
  | .missionItem seq _ _ _ _ _ _ _ _ _ _ _ => some seq
  | _ => none

/-- The current flag of a transmitted MISSION_ITEM. -/
def Sent.itemCurrent : Sent → Option Nat
  | .missionItem _ _ _ current _ _ _ _ _ _ _ _ => some current
  | _ => none

/-- The autocontinue flag of a transmitted MISSION_ITEM. -/
def Sent.itemAuto : Sent → Option Nat
  | .missionItem _ _ _ _ autocontinue _ _ _ _ _ _ _ => some autocontinue
  | _ => none

/-- The MISSION_ITEM writes the loop produces for `items` starting at
sequence `seq` when every step is answered. -/
def sentOfItems (seq : Nat) : List MissionItem → List Sent
  | [] => []
  | item :: rest => sentItemMsg seq item :: sentOfItems (seq + 1) rest

/-- A cooperative vehicle script for a mission of `n` items: accept the
clear, request item 0, request items 1..n-1, ack the final item, then
report a mission count of `c` to the verification step. -/
def happyScript (n c : Nat) : List Msg :=
  Msg.missionAck MAV_MISSION_ACCEPTED :: Msg.missionRequest 0 ::
    ((List.range (n - 1)).map (fun i => Msg.missionRequest (i + 1)) ++
      [Msg.missionAck MAV_MISSION_ACCEPTED, Msg.missionCount c])

/-- Same script, but the vehicle never answers the verification request
(the MISSION_COUNT reply times out). -/
def verifyTimeoutScript (n : Nat) : List Msg :=
  Msg.missionAck MAV_MISSION_ACCEPTED :: Msg.missionRequest 0 ::
    ((List.range (n - 1)).map (fun i => Msg.missionRequest (i + 1)) ++
      [Msg.missionAck MAV_MISSION_ACCEPTED])

/-- Iterated EMA: feed the same raw sample `n` times starting from a
published value `x`. -/
def emaIter (raw : ℚ) : Nat → ℚ → ℚ
  | 0, x => x
  | n + 1, x => ema (emaIter raw n x) raw

/-- The Telemetry Store after some prefix of traffic, then a detailed
BATTERY_STATUS message, then arbitrary further traffic. -/
def afterDetailed (s : Telemetry) (pre : List Msg) (voltages : List Int)
    (cb br : Int) (post : List Msg) : Telemetry :=
  runTelemetry (telemetryStep (runTelemetry s pre)
    (Msg.batteryStatus voltages cb br)) post

lemma EMA_ALPHA_eq : EMA_ALPHA = 1 / 25 := by
  norm_num [EMA_ALPHA]

lemma ema_le_of_le {x r : ℚ} (h : x ≤ r) : x ≤ ema x r ∧ ema x r ≤ r := by
  unfold ema
  rw [EMA_ALPHA_eq]
  split
  · simp [h]
  · constructor <;> nlinarith

lemma ema_ge_of_ge {x r : ℚ} (h : r ≤ x) : ema x r ≤ x ∧ r ≤ ema x r := by
  unfold ema
  rw [EMA_ALPHA_eq]
  split
  · simp [h]
  · constructor <;> nlinarith

lemma emaIter_bounds_le (r x : ℚ) (h : x ≤ r) :
    ∀ n, x ≤ emaIter r n x ∧ emaIter r n x ≤ r := by
  intro n
  induction n with
  | zero => exact ⟨le_refl x, h⟩
  | succ n ih =>
      have hs := ema_le_of_le ih.2
      exact ⟨le_trans ih.1 hs.1, hs.2⟩

lemma emaIter_bounds_ge (r x : ℚ) (h : r ≤ x) :
    ∀ n, emaIter r n x ≤ x ∧ r ≤ emaIter r n x := by
  intro n
  induction n with
  | zero => exact ⟨le_refl x, h⟩
  | succ n ih =>
      have hs := ema_ge_of_ge ih.2
      exact ⟨le_trans hs.1 ih.1, hs.2⟩

/-- C6: the smoothing function takes the raw sample verbatim when the
published value is the zero sentinel, otherwise moves the published value
by alpha = 0.04 of the residual; iterating it on a fixed raw sample moves
the published value monotonically toward the raw sample from either side
and never overshoots it. -/
theorem C6_ema_smoothing (x raw : ℚ) (n : Nat) :
    ema 0 raw = raw
    ∧ (x ≠ 0 → ema x raw = x + EMA_ALPHA * (raw - x))
    ∧ (x ≤ raw → emaIter raw n x ≤ emaIter raw (n + 1) x
        ∧ x ≤ emaIter raw n x ∧ emaIter raw n x ≤ raw)
    ∧ (raw ≤ x → emaIter raw (n + 1) x ≤ emaIter raw n x
        ∧ raw ≤ emaIter raw n x ∧ emaIter raw n x ≤ x) := by
  refine ⟨by simp [ema], fun hx => by simp [ema, hx], fun h => ?_, fun h => ?_⟩
  · have hb := emaIter_bounds_le raw x h n
    exact ⟨(ema_le_of_le hb.2).1, hb.1, hb.2⟩
  · have hb := emaIter_bounds_ge raw x h n
    exact ⟨(ema_ge_of_ge hb.2).1, hb.2, hb.1⟩

/-- Witness for C6 at concrete inputs: a start below the raw sample, a
start above it, and the closed-form step at a nonzero published value. -/
theorem C6_ema_smoothing_witness :
    ema 2 10 = 2 + EMA_ALPHA * (10 - 2)
    ∧ (emaIter 10 1 2 ≤ emaIter 10 2 2 ∧ 2 ≤ emaIter 10 1 2
        ∧ emaIter 10 1 2 ≤ 10)
    ∧ (emaIter 10 1 20 ≤ emaIter 10 0 20 ∧ 10 ≤ emaIter 10 0 20
        ∧ emaIter 10 0 20 ≤ 20) :=
  ⟨(C6_ema_smoothing 2 10 1).2.1 (by norm_num),
   (C6_ema_smoothing 2 10 1).2.2.1 (by norm_num),
   (C6_ema_smoothing 20 10 0).2.2.2 (by norm_num)⟩

lemma telemetryStep_sysStatus_of_hbs {t : Telemetry}
    (h : t.hasBatteryStatus = true) (br vb cb : Int) :
    telemetryStep t (Msg.sysStatus br vb cb) = t := by
  obtain ⟨la, lo, al, pi, ro, ya, ba, vo, cu, mo, ar, hbs⟩ := t
  cases hbs
  · exact Bool.noConfusion h
  · rfl

lemma telemetryStep_batteryStatus_hbs (t : Telemetry) (voltages : List Int)
    (cb br : Int) :
    (telemetryStep t (Msg.batteryStatus voltages cb br)).hasBatteryStatus
      = true := by
  simp only [telemetryStep]
  split_ifs <;> rfl

lemma telemetryStep_hbs_mono {t : Telemetry} (h : t.hasBatteryStatus = true)
    (m : Msg) : (telemetryStep t m).hasBatteryStatus = true := by
  obtain ⟨la, lo, al, pi, ro, ya, ba, vo, cu, mo, ar, hbs⟩ := t
  cases hbs
  · exact Bool.noConfusion h
  · cases m <;> first | rfl | (simp only [telemetryStep]; split_ifs <;> rfl)

lemma runTelemetry_hbs_mono {t : Telemetry} (h : t.hasBatteryStatus = true)
    (msgs : List Msg) : (runTelemetry t msgs).hasBatteryStatus = true := by
  induction msgs generalizing t with
  | nil => exact h
  | cons m rest ih => exact ih (telemetryStep_hbs_mono h m)

lemma afterDetailed_hbs (s : Telemetry) (pre : List Msg)
    (voltages : List Int) (cb br : Int) (post : List Msg) :
    (afterDetailed s pre voltages cb br post).hasBatteryStatus = true :=
  runTelemetry_hbs_mono (telemetryStep_batteryStatus_hbs _ _ _ _) post

/-- C5: once the Telemetry Store has processed a detailed BATTERY_STATUS
message, any later basic SYS_STATUS message leaves the voltage, current
and battery-percent fields of the store unchanged, whatever traffic came
before or in between. -/
theorem C5_detailed_battery_wins (s : Telemetry) (pre post : List Msg)
    (voltages : List Int) (cb br sbr svb scb : Int) :
    (telemetryStep (afterDetailed s pre voltages cb br post)
        (Msg.sysStatus sbr svb scb)).voltage
      = (afterDetailed s pre voltages cb br post).voltage
    ∧ (telemetryStep (afterDetailed s pre voltages cb br post)
        (Msg.sysStatus sbr svb scb)).current
      = (afterDetailed s pre voltages cb br post).current
    ∧ (telemetryStep (afterDetailed s pre voltages cb br post)
        (Msg.sysStatus sbr svb scb)).battery
      = (afterDetailed s pre voltages cb br post).battery := by
  rw [telemetryStep_sysStatus_of_hbs (afterDetailed_hbs s pre voltages cb br post)]
  exact ⟨rfl, rfl, rfl⟩

/-- C10: a SYS_STATUS whose battery_remaining is -1 or 0 never changes the
battery-percent field, and when a SYS_STATUS does change it the new value
is clamped to 0..100. -/
theorem C10_basic_battery_guard (t : Telemetry) (br vb cb : Int) :
    ((br = -1 ∨ br = 0) →
      (telemetryStep t (Msg.sysStatus br vb cb)).battery = t.battery)
    ∧ ((telemetryStep t (Msg.sysStatus br vb cb)).battery = t.battery
        ∨ (0 ≤ (telemetryStep t (Msg.sysStatus br vb cb)).battery
            ∧ (telemetryStep t (Msg.sysStatus br vb cb)).battery ≤ 100)) := by
  refine ⟨fun h => ?_, ?_⟩
  · rcases h with h | h <;> subst h <;>
      simp only [telemetryStep] <;> split_ifs <;> simp_all
  · simp only [telemetryStep]
    split_ifs <;> simp

/-- Witness for C10: a basic battery report of exactly 0 percent leaves
the store battery field at its previous value. -/
theorem C10_basic_battery_guard_witness :
    (telemetryStep initTelemetry (Msg.sysStatus 0 12600 500)).battery
      = initTelemetry.battery :=
  (C10_basic_battery_guard initTelemetry 0 12600 500).1 (Or.inr rfl)

/-- C3: the builder output has length N plus one per requested flag; when
requested, the first item is the Takeoff item (lat 0, lon 0, altitude 10)
and the last is the ReturnToLaunch item (lat 0, lon 0); the N waypoint
items appear in input order with acceptance radius 2 and pass-through 0;
and the two-waypoint example with both flags yields the 4-item list with
Takeoff first and RTL at sequence 3. -/
theorem C3_mission_builder (wps : List (ℚ × ℚ × ℚ)) (tk rtl : Bool) :
    (buildMissionItems wps tk rtl).length =
        wps.length + (if tk then 1 else 0) + (if rtl then 1 else 0)
    ∧ (tk = true → (buildMissionItems wps tk rtl).head? = some
        { command := MAV_CMD_NAV_TAKEOFF, param1 := 0, param2 := 0,
          param3 := 0, param4 := 0, x := 0, y := 0, z := 10,
          frame := MAV_FRAME_GLOBAL_RELATIVE_ALT })
    ∧ (∀ i, i < wps.length →
        (buildMissionItems wps tk rtl)[(if tk then 1 else 0) + i]? =
          (wps[i]?).map (fun w =>
            { command := MAV_CMD_NAV_WAYPOINT, param1 := 0, param2 := 2,
              param3 := 0, param4 := 0, x := w.1, y := w.2.1, z := w.2.2,
              frame := MAV_FRAME_GLOBAL_RELATIVE_ALT }))
    ∧ (rtl = true → (buildMissionItems wps tk rtl).getLast? = some
        { command := MAV_CMD_NAV_RETURN_TO_LAUNCH, param1 := 0, param2 := 0,
          param3 := 0, param4 := 0, x := 0, y := 0, z := 0,
          frame := MAV_FRAME_GLOBAL_RELATIVE_ALT })
    ∧ buildMissionItems [(37, -122, 10), (37.001, -122, 10)] true true =
        [takeoffItem, waypointItem 37 (-122) 10,
         waypointItem 37.001 (-122) 10, rtlItem] := by
  refine ⟨?_, fun h => ?_, fun i hi => ?_, fun h => ?_, rfl⟩
  · cases tk <;> cases rtl <;> simp [buildMissionItems]
  · subst h
    cases rtl <;> simp [buildMissionItems, takeoffItem]
  · cases tk <;> cases rtl <;>
      simp [buildMissionItems, Nat.add_comm 1 i, List.getElem?_append,
        List.length_map, hi, List.getElem?_map, waypointItem]
  · subst h
    have hb : buildMissionItems wps tk true =
        ((if tk then [takeoffItem] else []) ++
          wps.map (fun w => waypointItem w.1 w.2.1 w.2.2)) ++ [rtlItem] := rfl
    rw [hb, List.getLast?_concat]
    rfl

/-- Witness for C3 at the two-waypoint example with both flags set. -/
theorem C3_mission_builder_witness :
    (buildMissionItems [(37, -122, 10), (37.001, -122, 10)] true true).head?
      = some
        { command := MAV_CMD_NAV_TAKEOFF, param1 := 0, param2 := 0,
          param3 := 0, param4 := 0, x := 0, y := 0, z := 10,
          frame := MAV_FRAME_GLOBAL_RELATIVE_ALT }
    ∧ (buildMissionItems [(37, -122, 10), (37.001, -122, 10)] true
          true)[(if true then 1 else 0) + 0]?
      = (([((37 : ℚ), (-122 : ℚ), (10 : ℚ)), (37.001, -122, 10)])[0]?).map
          (fun w =>
            { command := MAV_CMD_NAV_WAYPOINT, param1 := 0, param2 := 2,
              param3 := 0, param4 := 0, x := w.1, y := w.2.1, z := w.2.2,
              frame := MAV_FRAME_GLOBAL_RELATIVE_ALT })
    ∧ (buildMissionItems [(37, -122, 10), (37.001, -122, 10)] true
          true).getLast?
      = some
        { command := MAV_CMD_NAV_RETURN_TO_LAUNCH, param1 := 0,
          param2 := 0, param3 := 0, param4 := 0, x := 0, y := 0, z := 0,
          frame := MAV_FRAME_GLOBAL_RELATIVE_ALT } :=
  ⟨(C3_mission_builder [(37, -122, 10), (37.001, -122, 10)] true true).2.1
      rfl,
   (C3_mission_builder [(37, -122, 10), (37.001, -122, 10)] true
      true).2.2.1 0 (by norm_num),
   (C3_mission_builder [(37, -122, 10), (37.001, -122, 10)] true
      true).2.2.2.1 rfl⟩

lemma recvMatch_length_le (p : Msg → Bool) :
    ∀ l : List Msg, ((recvMatch p l).2).length ≤ l.length := by
  intro l
  induction l with
  | nil => simp [recvMatch]
  | cons m rest ih =>
      simp only [recvMatch]
      split
      · simp
      · exact le_trans ih (by simp)

lemma recvMatch_cons_length_lt (p : Msg → Bool) (m : Msg) (rest : List Msg) :
    ((recvMatch p (m :: rest)).2).length < (m :: rest).length := by
  simp only [recvMatch]
  split
  · simp
  · exact lt_of_le_of_lt (recvMatch_length_le p rest) (by simp)

/-- C1 counterexample: the claim says the Mission Uploader never performs
a receive on the transport itself, but already the clear step consumes
the MISSION_ACK from the transport inbound stream: after `_clear_mission`
runs on a stream holding one accepted ack, that stream is no longer
intact (the uploader, not the telemetry loop, consumed the message). -/
theorem C1_counterexample :
    ¬ ((clearMission [Msg.missionAck MAV_MISSION_ACCEPTED]).inbound
        = [Msg.missionAck MAV_MISSION_ACCEPTED]) := by
  decide

/-- C1 amended: the Mission Uploader reads the transport inbound stream
directly — every handshake step (clear, count, per-item, verify) consumes
at least one message from a nonempty inbound stream, exactly as one
iteration of the telemetry loop does on the same stream; there is no
router-filled reply slot. -/
theorem C1_uploader_reads_transport (t : Telemetry) (m : Msg)
    (rest : List Msg) (seq totalItems expectedCount count : Nat)
    (item : MissionItem) :
    (clearMission (m :: rest)).inbound.length < (m :: rest).length
    ∧ (sendMissionCount count (m :: rest)).inbound.length
        < (m :: rest).length
    ∧ (sendMissionItemStep seq item totalItems (m :: rest)).inbound.length
        < (m :: rest).length
    ∧ (verifyMission expectedCount (m :: rest)).inbound.length
        < (m :: rest).length
    ∧ (telemetryLoopIter t (m :: rest)).2.length < (m :: rest).length := by
  refine ⟨recvMatch_cons_length_lt _ m rest, recvMatch_cons_length_lt _ m rest,
    ?_, recvMatch_cons_length_lt _ m rest, by simp [telemetryLoopIter]⟩
  simp only [sendMissionItemStep]
  split
  · exact recvMatch_cons_length_lt _ m rest
  · exact recvMatch_cons_length_lt _ m rest

lemma recvMatch_isSome_any (p : Msg → Bool) :
    ∀ l : List Msg, ((recvMatch p l).1).isSome = l.any p := by
  intro l
  induction l with
  | nil => rfl
  | cons m rest ih =>
      simp only [recvMatch, List.any_cons]
      split
      · simp_all
      · simp_all

lemma sendMissionItemStep_sent (seq : Nat) (item : MissionItem)
    (totalItems : Nat) (inbound : List Msg) :
    (sendMissionItemStep seq item totalItems inbound).sent
      = [sentItemMsg seq item] := rfl

lemma sendItemsFrom_sent_seqs (totalItems : Nat) :
    ∀ (items : List MissionItem) (seq : Nat) (inbound : List Msg),
      ((sendItemsFrom totalItems seq items inbound).sent).filterMap
          Sent.itemSeq
        = List.range' seq
            (sendItemsFrom totalItems seq items inbound).sent.length := by
  intro items
  induction items with
  | nil => intro seq inbound; rfl
  | cons item rest ih =>
      intro seq inbound
      simp only [sendItemsFrom]
      split
      · simp [List.filterMap_append, sendMissionItemStep_sent, sentItemMsg,
          Sent.itemSeq, ih]
        rw [List.range'_succ]
      · simp [sendMissionItemStep_sent, sentItemMsg, Sent.itemSeq,
          List.range'_succ]

lemma sendItemsFrom_sent_take (totalItems : Nat) :
    ∀ (items : List MissionItem) (seq : Nat) (inbound : List Msg),
      ∃ n, (sendItemsFrom totalItems seq items inbound).sent
          = sentOfItems seq (items.take n) ∧ (items ≠ [] → 0 < n) := by
  intro items
  induction items with
  | nil => intro seq inbound; exact ⟨0, rfl, by simp⟩
  | cons item rest ih =>
      intro seq inbound
      simp only [sendItemsFrom]
      split
      · obtain ⟨n, hn, _⟩ := ih (seq + 1)
          (sendMissionItemStep seq item totalItems inbound).inbound
        exact ⟨n + 1,
          by simp [sentOfItems, hn, sendMissionItemStep_sent], by simp⟩
      · exact ⟨1, by simp [sentOfItems, sendMissionItemStep_sent], by simp⟩

lemma sendMissionItemStep_last_ok (seq : Nat) (item : MissionItem)
    (inbound : List Msg) :
    (sendMissionItemStep seq item (seq + 1) inbound).ok
      = inbound.any Msg.isMissionAck := by
  simp [sendMissionItemStep, recvMatch_isSome_any]

lemma sendMissionItemStep_request_ok (seq : Nat) (item : MissionItem)
    (totalItems q : Nat) (inbound : List Msg) (h : seq < totalItems - 1) :
    sendMissionItemStep seq item totalItems (Msg.missionRequest q :: inbound)
      = ⟨true, inbound, [sentItemMsg seq item]⟩ := by
  simp [sendMissionItemStep, recvMatch, Msg.isMissionRequest, h]

/-- C2 counterexample: a two-item mission where, after item 0 is sent, the
vehicle re-requests sequence 0.  The claim says the uploader then resends
index 0; the code advances and transmits index 1 (it never inspects the
requested sequence number), so the transmitted sequence trace is 0, 1 and
not 0, 0. -/
theorem C2_counterexample :
    ((sendItemsFrom 2 0 [waypointItem 1 2 3, waypointItem 4 5 6]
        [Msg.missionRequest 0, Msg.missionAck 0]).sent.map Sent.itemSeq)
      = [some 0, some 1]
    ∧ ((sendItemsFrom 2 0 [waypointItem 1 2 3, waypointItem 4 5 6]
        [Msg.missionRequest 0, Msg.missionAck 0]).sent.map Sent.itemSeq)
      ≠ [some 0, some 0] := by
  decide

/-- C2 amended: at each step the uploader sends item seq; for
seq < N-1 it waits for a mission-item request of any sequence and then
always advances to seq+1 (a re-requested previous index is not resent,
as the transmitted sequence numbers are consecutive from the starting
index on every inbound stream); for seq = N-1 it waits for a mission-ack;
and a timeout at step k makes upload_mission fail with the message naming
waypoint k. -/
theorem C2_item_loop :
    (∀ (totalItems : Nat) (items : List MissionItem) (seq : Nat)
        (inbound : List Msg),
      ((sendItemsFrom totalItems seq items inbound).sent).filterMap
          Sent.itemSeq
        = List.range' seq
            (sendItemsFrom totalItems seq items inbound).sent.length)
    ∧ (∀ (totalItems seq q : Nat) (item : MissionItem)
        (rest : List MissionItem) (inbound : List Msg),
        seq < totalItems - 1 →
        (sendItemsFrom totalItems seq (item :: rest)
              (Msg.missionRequest q :: inbound)).sent
            = sentItemMsg seq item
                :: (sendItemsFrom totalItems (seq + 1) rest inbound).sent
          ∧ (sendItemsFrom totalItems seq (item :: rest)
              (Msg.missionRequest q :: inbound)).failedSeq
            = (sendItemsFrom totalItems (seq + 1) rest inbound).failedSeq)
    ∧ (∀ (seq : Nat) (item : MissionItem) (inbound : List Msg),
        (sendItemsFrom (seq + 1) seq [item] inbound).failedSeq
          = if inbound.any Msg.isMissionAck = true then none else some seq)
    ∧ (∀ (mgr : Manager) (wps : List (ℚ × ℚ × ℚ)) (tk rtl : Bool)
        (inbound : List Msg) (k : Nat),
        mgr.connected = true →
        (clearMission inbound).ok = true →
        (sendMissionCount (buildMissionItems wps tk rtl).length
            (clearMission inbound).inbound).ok = true →
        (sendItemsFrom (buildMissionItems wps tk rtl).length 0
            (buildMissionItems wps tk rtl)
            (sendMissionCount (buildMissionItems wps tk rtl).length
              (clearMission inbound).inbound).inbound).failedSeq = some k →
        (uploadMission mgr wps tk rtl inbound).result
          = (false, "Failed to upload waypoint " ++ toString k)) := by
  refine ⟨fun totalItems items seq inbound =>
      sendItemsFrom_sent_seqs totalItems items seq inbound,
    fun totalItems seq q item rest inbound h => ?_,
    fun seq item inbound => ?_,
    fun mgr wps tk rtl inbound k h1 hc hsc hk => ?_⟩
  · rw [show (sendItemsFrom totalItems seq (item :: rest)
        (Msg.missionRequest q :: inbound))
      = ⟨(sendItemsFrom totalItems (seq + 1) rest inbound).failedSeq,
         (sendItemsFrom totalItems (seq + 1) rest inbound).inbound,
         [sentItemMsg seq item]
           ++ (sendItemsFrom totalItems (seq + 1) rest inbound).sent,
         ("Uploading waypoint " ++ toString (seq + 1) ++ "/"
             ++ toString totalItems)
           :: (sendItemsFrom totalItems (seq + 1) rest inbound).progress⟩
      from by
        simp only [sendItemsFrom, sendMissionItemStep_request_ok seq item
          totalItems q inbound h]
        simp]
    exact ⟨rfl, rfl⟩
  · simp only [sendItemsFrom, sendMissionItemStep_last_ok]
    split <;> simp_all [sendItemsFrom]
  · obtain ⟨cf⟩ := mgr
    cases cf
    · exact absurd h1 (by simp)
    · simp only [uploadMission]
      simp [hc, hsc, hk]

/-- Witness for C2 at concrete inputs: a request for sequence 5 answers
the wait after item 0 of a 3-item mission, and the loop then continues
with item 1; and a concrete upload that times out at waypoint 0 reports
that waypoint in its failure message. -/
theorem C2_item_loop_witness :
    ((sendItemsFrom 3 0 [waypointItem 1 2 3, waypointItem 4 5 6]
          (Msg.missionRequest 5 :: [])).sent
        = sentItemMsg 0 (waypointItem 1 2 3)
            :: (sendItemsFrom 3 1 [waypointItem 4 5 6] []).sent
      ∧ (sendItemsFrom 3 0 [waypointItem 1 2 3, waypointItem 4 5 6]
          (Msg.missionRequest 5 :: [])).failedSeq
        = (sendItemsFrom 3 1 [waypointItem 4 5 6] []).failedSeq)
    ∧ (uploadMission ⟨true⟩ [(1, 2, 3)] false false
          [Msg.missionAck MAV_MISSION_ACCEPTED, Msg.missionRequest 0]).result
        = (false, "Failed to upload waypoint " ++ toString 0) :=
  ⟨C2_item_loop.2.1 3 0 5 (waypointItem 1 2 3) [waypointItem 4 5 6] []
      (by norm_num),
   C2_item_loop.2.2.2 ⟨true⟩ [(1, 2, 3)] false false
      [Msg.missionAck MAV_MISSION_ACCEPTED, Msg.missionRequest 0] 0
      rfl (by decide) (by decide) (by decide)⟩

lemma sentOfItems_mem :
    ∀ (l : List MissionItem) (seq : Nat) (s : Sent),
      s ∈ sentOfItems seq l → ∃ k it, seq ≤ k ∧ s = sentItemMsg k it := by
  intro l
  induction l with
  | nil => intro seq s h; simp [sentOfItems] at h
  | cons item rest ih =>
      intro seq s h
      simp only [sentOfItems, List.mem_cons] at h
      rcases h with h | h
      · exact ⟨seq, item, le_refl seq, h⟩
      · obtain ⟨k, it, hk, hs⟩ := ih (seq + 1) s h
        exact ⟨k, it, by omega, hs⟩

lemma sentOfItems_countP_pos :
    ∀ (l : List MissionItem) (seq : Nat), 0 < seq →
      (sentOfItems seq l).countP (fun s => s.itemCurrent == some 1) = 0 := by
  intro l
  induction l with
  | nil => intro seq _; rfl
  | cons item rest ih =>
      intro seq h
      have h0 : (Sent.itemCurrent (sentItemMsg seq item) == some 1)
          = false := by
        have hb : (seq == 0) = false := by
          simp only [beq_eq_false_iff_ne, ne_eq]
          omega
        simp [sentItemMsg, Sent.itemCurrent, hb]
      simp only [sentOfItems, List.countP_cons, h0]
      simp [ih (seq + 1) (by omega)]

/-- C4: over every inbound stream, every transmitted mission item carries
autocontinue = 1 and carries current = 1 exactly when its sequence number
is 0; for a nonempty mission exactly one transmitted item has
current = 1. -/
theorem C4_current_autocontinue (items : List MissionItem)
    (inbound : List Msg) (h : items ≠ []) :
    (∀ s ∈ (sendItemsFrom items.length 0 items inbound).sent,
        s.itemAuto = some 1
        ∧ (s.itemCurrent = some 1 ↔ s.itemSeq = some 0)
        ∧ (s.itemSeq ≠ some 0 → s.itemCurrent = some 0))
    ∧ ((sendItemsFrom items.length 0 items inbound).sent).countP
        (fun s => s.itemCurrent == some 1) = 1 := by
  obtain ⟨n, he, hp⟩ := sendItemsFrom_sent_take items.length items 0 inbound
  rw [he]
  constructor
  · intro s hs
    obtain ⟨k, it, _, rfl⟩ := sentOfItems_mem _ 0 s hs
    cases k <;>
      simp [sentItemMsg, Sent.itemAuto, Sent.itemCurrent, Sent.itemSeq]
  · have hpos := hp h
    cases items with
    | nil => exact absurd rfl h
    | cons a l =>
        cases n with
        | zero => omega
        | succ m =>
            have hhead : (Sent.itemCurrent (sentItemMsg 0 a) == some 1)
                = true := by simp [sentItemMsg, Sent.itemCurrent]
            simp only [List.take, sentOfItems, List.countP_cons, hhead]
            simp [sentOfItems_countP_pos (l.take m) 1 (by omega)]

/-- Witness for C4 on a concrete two-item mission and inbound stream. -/
theorem C4_current_autocontinue_witness :
    ((sendItemsFrom [waypointItem 1 2 3, waypointItem 4 5 6].length 0
        [waypointItem 1 2 3, waypointItem 4 5 6]
        [Msg.missionRequest 1, Msg.missionAck 0]).sent).countP
        (fun s => s.itemCurrent == some 1) = 1 :=
  (C4_current_autocontinue [waypointItem 1 2 3, waypointItem 4 5 6]
    [Msg.missionRequest 1, Msg.missionAck 0] (by decide)).2

/-- C7: when the clear step gets no MISSION_ACK (timeout) or a first ack
whose status is not MAV_MISSION_ACCEPTED, upload_mission returns failure
with exactly the message "Failed to clear existing mission", writes
nothing to the transport except the clear command (no count, no items),
and leaves the manager state — in particular the connected flag —
unchanged. -/
theorem C7_clear_failure (mgr : Manager) (wps : List (ℚ × ℚ × ℚ))
    (tk rtl : Bool) (inbound : List Msg)
    (h1 : mgr.connected = true)
    (h2 : (recvMatch Msg.isMissionAck inbound).1 = none
          ∨ ∃ a, a ≠ MAV_MISSION_ACCEPTED
              ∧ (recvMatch Msg.isMissionAck inbound).1
                  = some (Msg.missionAck a)) :
    uploadMission mgr wps tk rtl inbound
      = ⟨(false, "Failed to clear existing mission"), mgr,
          [Sent.missionClearAll], ["Clearing existing mission..."]⟩ := by
  have hc : (clearMission inbound).ok = false := by
    rcases h2 with h2 | ⟨a, ha, h2⟩ <;>
      simp [clearMission, h2, MAV_MISSION_ACCEPTED] at *
    omega
  obtain ⟨cf⟩ := mgr
  cases cf
  · exact absurd h1 (by simp)
  · simp only [uploadMission]
    simp [hc]
    rfl

/-- Witness for C7: a stream with no ack at all (pure timeout). -/
theorem C7_clear_failure_witness :
    uploadMission ⟨true⟩ [(1, 2, 3)] true true [Msg.missionRequest 0]
      = ⟨(false, "Failed to clear existing mission"), ⟨true⟩,
          [Sent.missionClearAll], ["Clearing existing mission..."]⟩ :=
  C7_clear_failure ⟨true⟩ [(1, 2, 3)] true true [Msg.missionRequest 0]
    rfl (Or.inl rfl)

lemma sendMissionItemStep_last_ack (seq : Nat) (item : MissionItem)
    (a : Nat) (rest : List Msg) :
    sendMissionItemStep seq item (seq + 1) (Msg.missionAck a :: rest)
      = ⟨true, rest, [sentItemMsg seq item]⟩ := by
  simp [sendMissionItemStep, recvMatch, Msg.isMissionAck]

lemma sendItemsFrom_cons (totalItems seq : Nat) (item : MissionItem)
    (rest : List MissionItem) (inbound : List Msg) :
    sendItemsFrom totalItems seq (item :: rest) inbound
      = if (sendMissionItemStep seq item totalItems inbound).ok = true
        then ⟨(sendItemsFrom totalItems (seq + 1) rest
                (sendMissionItemStep seq item totalItems inbound).inbound).failedSeq,
              (sendItemsFrom totalItems (seq + 1) rest
                (sendMissionItemStep seq item totalItems inbound).inbound).inbound,
              (sendMissionItemStep seq item totalItems inbound).sent
                ++ (sendItemsFrom totalItems (seq + 1) rest
                    (sendMissionItemStep seq item totalItems inbound).inbound).sent,
              ("Uploading waypoint " ++ toString (seq + 1) ++ "/"
                  ++ toString totalItems)
                :: (sendItemsFrom totalItems (seq + 1) rest
                    (sendMissionItemStep seq item totalItems inbound).inbound).progress⟩
        else ⟨some seq,
              (sendMissionItemStep seq item totalItems inbound).inbound,
              (sendMissionItemStep seq item totalItems inbound).sent,
              ["Uploading waypoint " ++ toString (seq + 1) ++ "/"
                  ++ toString totalItems]⟩ := rfl

lemma sendItemsFrom_script :
    ∀ (items : List MissionItem) (totalItems seq : Nat) (reqs : List Nat)
      (rest : List Msg) (a : Nat),
      items ≠ [] →
      totalItems = seq + items.length →
      reqs.length = items.length - 1 →
      (sendItemsFrom totalItems seq items
          (reqs.map Msg.missionRequest
            ++ Msg.missionAck a :: rest)).failedSeq = none
      ∧ (sendItemsFrom totalItems seq items
          (reqs.map Msg.missionRequest
            ++ Msg.missionAck a :: rest)).inbound = rest
      ∧ (sendItemsFrom totalItems seq items
          (reqs.map Msg.missionRequest
            ++ Msg.missionAck a :: rest)).sent = sentOfItems seq items := by
  intro items
  induction items with
  | nil => intro _ _ _ _ _ h _ _; exact absurd rfl h
  | cons item tail ih =>
      intro totalItems seq reqs rest a _ htot hreq
      cases tail with
      | nil =>
          have hr : reqs = [] := by
            cases reqs
            · rfl
            · simp at hreq
          subst hr
          have h1 : totalItems = seq + 1 := by simpa using htot
          subst h1
          simp only [List.map_nil, List.nil_append]
          rw [sendItemsFrom_cons, sendMissionItemStep_last_ack]
          simp [sentOfItems, sendItemsFrom]
      | cons item2 tail2 =>
          cases reqs with
          | nil => simp at hreq
          | cons q qs =>
              have hq : qs.length = (item2 :: tail2).length - 1 := by
                simp at hreq ⊢
                omega
              have hlt : seq < totalItems - 1 := by
                simp only [List.length_cons] at htot
                omega
              have ih2 := ih totalItems (seq + 1) qs rest a (by simp)
                (by simp only [List.length_cons] at htot ⊢; omega) hq
              simp only [List.map_cons, List.cons_append]
              rw [sendItemsFrom_cons,
                sendMissionItemStep_request_ok seq item totalItems q _ hlt]
              simp [ih2.1, ih2.2.1, ih2.2.2, sentOfItems]

/-- C8: against a cooperative vehicle script, the verification step sends
the mission-count request (the last transport write) and the upload
succeeds iff the count the vehicle reports equals the number N of items
sent — success carries the total item count in its message, and a
mismatching count or a verification timeout yields failure with the
message "Mission verification failed". -/
theorem C8_verification (mgr : Manager) (wps : List (ℚ × ℚ × ℚ))
    (tk rtl : Bool) (c : Nat)
    (h1 : mgr.connected = true)
    (hn : 0 < (buildMissionItems wps tk rtl).length) :
    ((uploadMission mgr wps tk rtl
        (happyScript (buildMissionItems wps tk rtl).length c)).result
      = if c = (buildMissionItems wps tk rtl).length
        then (true, "Successfully uploaded "
            ++ toString (buildMissionItems wps tk rtl).length ++ " waypoints")
        else (false, "Mission verification failed"))
    ∧ ((uploadMission mgr wps tk rtl
        (happyScript (buildMissionItems wps tk rtl).length c)).sent.getLast?
      = some Sent.missionRequestList)
    ∧ (uploadMission mgr wps tk rtl
        (verifyTimeoutScript (buildMissionItems wps tk rtl).length)).result
      = (false, "Mission verification failed") := by
  obtain ⟨cf⟩ := mgr
  cases cf
  · exact absurd h1 (by simp)
  · simp only [uploadMission]
    generalize hI : buildMissionItems wps tk rtl = items at hn ⊢
    have hne : items ≠ [] := by
      intro h
      rw [h] at hn
      simp at hn
    have hclear : ∀ tailMsgs : List Msg,
        clearMission (Msg.missionAck MAV_MISSION_ACCEPTED
            :: Msg.missionRequest 0 :: tailMsgs)
          = ⟨true, Msg.missionRequest 0 :: tailMsgs,
              [Sent.missionClearAll]⟩ := by
      intro tailMsgs
      simp [clearMission, recvMatch, Msg.isMissionAck]
    have hcount : ∀ (n : Nat) (tailMsgs : List Msg),
        sendMissionCount n (Msg.missionRequest 0 :: tailMsgs)
          = ⟨true, tailMsgs, [Sent.missionCount n]⟩ := by
      intro n tailMsgs
      simp [sendMissionCount, recvMatch, Msg.isMissionRequest]
    have harg : (List.range (items.length - 1)).map
          (fun i => Msg.missionRequest (i + 1))
        = ((List.range (items.length - 1)).map (fun i => i + 1)).map
            Msg.missionRequest := by
      simp [List.map_map, Function.comp]
    have hloop := sendItemsFrom_script items items.length 0
        ((List.range (items.length - 1)).map (fun i => i + 1))
        [Msg.missionCount c] MAV_MISSION_ACCEPTED hne (by omega) (by simp)
    have hloop2 := sendItemsFrom_script items items.length 0
        ((List.range (items.length - 1)).map (fun i => i + 1))
        [] MAV_MISSION_ACCEPTED hne (by omega) (by simp)
    rw [← harg] at hloop hloop2
    have hver : verifyMission items.length [Msg.missionCount c]
        = ⟨c == items.length, [], [Sent.missionRequestList]⟩ := by
      simp [verifyMission, recvMatch, Msg.isMissionCount]
    have hver2 : verifyMission items.length ([] : List Msg)
        = ⟨false, [], [Sent.missionRequestList]⟩ := by
      simp [verifyMission, recvMatch]
    simp only [happyScript, verifyTimeoutScript, hclear, hcount]
    simp only [hloop.1, hloop.2.1, hloop.2.2, hloop2.1, hloop2.2.1,
      hloop2.2.2, hver, hver2]
    refine ⟨?_, ?_, ?_⟩
    · by_cases hc : c = items.length <;> simp [hc]
    · by_cases hc : c = items.length <;> simp [hc] <;>
        rw [← List.cons_append, List.getLast?_concat]
    · simp

/-- Witness for C8: a one-waypoint mission whose count reply matches. -/
theorem C8_verification_witness :
    (uploadMission ⟨true⟩ [(1, 2, 3)] false false
        (happyScript (buildMissionItems [(1, 2, 3)] false false).length
          1)).result
      = if 1 = (buildMissionItems [(1, 2, 3)] false false).length
        then (true, "Successfully uploaded "
            ++ toString (buildMissionItems [(1, 2, 3)] false false).length
            ++ " waypoints")
        else (false, "Mission verification failed") :=
  (C8_verification ⟨true⟩ [(1, 2, 3)] false false 1 rfl (by decide)).1

lemma connectFrom_else (port : String) (retries : Nat)
    (outcome : Nat → AttemptOutcome) (attempt : Nat)
    (h : ¬ attempt < retries) :
    connectFrom port retries outcome attempt = ⟨none, none, 0, []⟩ := by
  rw [connectFrom, if_neg h]

lemma connectFrom_success (port : String) (retries : Nat)
    (outcome : Nat → AttemptOutcome) (attempt : Nat)
    (h : attempt < retries) (hs : outcome attempt = .success) :
    connectFrom port retries outcome attempt
      = ⟨some (true, "Connected successfully"), some true, 1, []⟩ := by
  rw [connectFrom, if_pos h, hs]

lemma connectFrom_perm_last (port : String) (retries : Nat)
    (outcome : Nat → AttemptOutcome) (attempt : Nat) (e : String)
    (h : attempt < retries) (hl : ¬ attempt < retries - 1)
    (ho : outcome attempt = .permError e) :
    connectFrom port retries outcome attempt
      = ⟨some (false, permDiagnostic port), some false, 1, []⟩ := by
  rw [connectFrom, if_pos h, ho]
  simp [hl]

lemma connectFrom_other_last (port : String) (retries : Nat)
    (outcome : Nat → AttemptOutcome) (attempt : Nat) (e : String)
    (h : attempt < retries) (hl : ¬ attempt < retries - 1)
    (ho : outcome attempt = .otherError e) :
    connectFrom port retries outcome attempt
      = ⟨some (false, "Connection failed after " ++ toString retries
            ++ " attempts: " ++ e), some false, 1, []⟩ := by
  rw [connectFrom, if_pos h, ho]
  simp [hl]

lemma connectFrom_fail_cont (port : String) (retries : Nat)
    (outcome : Nat → AttemptOutcome) (attempt : Nat)
    (hl : attempt < retries - 1) (hf : (outcome attempt).isFailure = true) :
    connectFrom port retries outcome attempt
      = ⟨(connectFrom port retries outcome (attempt + 1)).result,
         (connectFrom port retries outcome (attempt + 1)).connectedFlag,
         (connectFrom port retries outcome (attempt + 1)).attempts + 1,
         2 :: (connectFrom port retries outcome (attempt + 1)).delays⟩ := by
  have h : attempt < retries := by omega
  rw [connectFrom, if_pos h]
  cases ho : outcome attempt
  · rw [ho] at hf
    exact absurd hf (by simp [AttemptOutcome.isFailure])
  · simp [hl]
  · simp [hl]

lemma connect_attempts_delays (port : String) (retries : Nat)
    (outcome : Nat → AttemptOutcome) :
    ∀ d attempt, retries - attempt ≤ d →
      (connectFrom port retries outcome attempt).attempts ≤ retries - attempt
      ∧ (connectFrom port retries outcome attempt).delays
          = List.replicate
              ((connectFrom port retries outcome attempt).attempts - 1) 2
      ∧ (attempt < retries →
          1 ≤ (connectFrom port retries outcome attempt).attempts) := by
  intro d
  induction d with
  | zero =>
      intro attempt h
      have hge : ¬ attempt < retries := by omega
      rw [connectFrom_else port retries outcome attempt hge]
      simp [hge]
  | succ d ih =>
      intro attempt h
      by_cases hlt : attempt < retries
      · cases ho : outcome attempt with
        | success =>
            rw [connectFrom_success port retries outcome attempt hlt ho]
            exact ⟨by simp; omega, by simp, fun _ => by simp⟩
        | permError e =>
            by_cases hl : attempt < retries - 1
            · rw [connectFrom_fail_cont port retries outcome attempt hl
                (by simp [AttemptOutcome.isFailure, ho])]
              obtain ⟨ha, hd, hone⟩ := ih (attempt + 1) (by omega)
              have h1 := hone (by omega)
              refine ⟨by simp; omega, ?_, fun _ => by simp⟩
              have h2 : (connectFrom port retries outcome
                    (attempt + 1)).attempts + 1 - 1
                  = ((connectFrom port retries outcome
                      (attempt + 1)).attempts - 1) + 1 := by omega
              simp only []
              rw [hd, h2, List.replicate_succ]
            · rw [connectFrom_perm_last port retries outcome attempt e hlt
                hl ho]
              exact ⟨by simp; omega, by simp, fun _ => by simp⟩
        | otherError e =>
            by_cases hl : attempt < retries - 1
            · rw [connectFrom_fail_cont port retries outcome attempt hl
                (by simp [AttemptOutcome.isFailure, ho])]
              obtain ⟨ha, hd, hone⟩ := ih (attempt + 1) (by omega)
              have h1 := hone (by omega)
              refine ⟨by simp; omega, ?_, fun _ => by simp⟩
              have h2 : (connectFrom port retries outcome
                    (attempt + 1)).attempts + 1 - 1
                  = ((connectFrom port retries outcome
                      (attempt + 1)).attempts - 1) + 1 := by omega
              simp only []
              rw [hd, h2, List.replicate_succ]
            · rw [connectFrom_other_last port retries outcome attempt e hlt
                hl ho]
              exact ⟨by simp; omega, by simp, fun _ => by simp⟩
      · rw [connectFrom_else port retries outcome attempt hlt]
        simp [hlt]

lemma connect_exhaust (port : String) (retries : Nat)
    (outcome : Nat → AttemptOutcome) :
    ∀ d attempt, retries - attempt ≤ d → attempt < retries →
      (∀ i, attempt ≤ i → i < retries → (outcome i).isFailure = true) →
      (connectFrom port retries outcome attempt).result
          = (connectFrom port retries outcome (retries - 1)).result
      ∧ (connectFrom port retries outcome attempt).connectedFlag
          = (connectFrom port retries outcome (retries - 1)).connectedFlag := by
  intro d
  induction d with
  | zero => intro attempt h hlt _; omega
  | succ d ih =>
      intro attempt h hlt hall
      by_cases hl : attempt < retries - 1
      · rw [connectFrom_fail_cont port retries outcome attempt hl
          (hall attempt (le_refl attempt) hlt)]
        exact ih (attempt + 1) (by omega) (by omega)
          (fun i hi₁ hi₂ => hall i (by omega) hi₂)
      · have : attempt = retries - 1 := by omega
        rw [this]
        exact ⟨rfl, rfl⟩

lemma connect_first_success (port : String) (retries : Nat)
    (outcome : Nat → AttemptOutcome) :
    ∀ d attempt, retries - attempt ≤ d → ∀ k, attempt ≤ k → k < retries →
      outcome k = .success →
      (∀ i, attempt ≤ i → i < k → (outcome i).isFailure = true) →
      (connectFrom port retries outcome attempt).result
          = some (true, "Connected successfully")
      ∧ (connectFrom port retries outcome attempt).attempts
          = k + 1 - attempt := by
  intro d
  induction d with
  | zero => intro attempt h k hk₁ hk₂ _ _; omega
  | succ d ih =>
      intro attempt h k hk₁ hk₂ hs hall
      by_cases he : attempt = k
      · subst he
        rw [connectFrom_success port retries outcome attempt hk₂ hs]
        exact ⟨rfl, by simp⟩
      · have hltk : attempt < k := by omega
        have hl : attempt < retries - 1 := by omega
        rw [connectFrom_fail_cont port retries outcome attempt hl
          (hall attempt (le_refl attempt) hltk)]
        obtain ⟨hr, ha⟩ := ih (attempt + 1) (by omega) k (by omega) hk₂ hs
          (fun i hi₁ hi₂ => hall i (by omega) hi₂)
        exact ⟨hr, by simp [ha]; omega⟩

/-- C9: connect makes at most `retries` open-plus-heartbeat attempts with
a fixed 2-second sleep between consecutive attempts; when every attempt
fails, a PermissionError on the final attempt yields the port-busy /
needs-admin diagnostic while any other final exception yields a message
naming the attempt count; and a failure on a non-final attempt is handled
locally — a later successful attempt still returns success. -/
theorem C9_connect_retry (port : String) (retries : Nat)
    (outcome : Nat → AttemptOutcome) :
    ((connect port retries outcome).attempts ≤ retries)
    ∧ ((connect port retries outcome).delays
        = List.replicate ((connect port retries outcome).attempts - 1) 2)
    ∧ (∀ e, (∀ i, i < retries → (outcome i).isFailure = true) →
        0 < retries → outcome (retries - 1) = .permError e →
        (connect port retries outcome).result
            = some (false, permDiagnostic port)
        ∧ (connect port retries outcome).connectedFlag = some false)
    ∧ (∀ e, (∀ i, i < retries → (outcome i).isFailure = true) →
        0 < retries → outcome (retries - 1) = .otherError e →
        (connect port retries outcome).result
          = some (false, "Connection failed after " ++ toString retries
              ++ " attempts: " ++ e))
    ∧ (∀ k, k < retries → outcome k = .success →
        (∀ i, i < k → (outcome i).isFailure = true) →
        (connect port retries outcome).result
            = some (true, "Connected successfully")
        ∧ (connect port retries outcome).attempts = k + 1) := by
  have hbase := connect_attempts_delays port retries outcome retries 0
    (by omega)
  refine ⟨by simpa using hbase.1, hbase.2.1, fun e hall hpos ho => ?_,
    fun e hall hpos ho => ?_, fun k hk hs hall => ?_⟩
  · have hex := connect_exhaust port retries outcome retries 0 (by omega)
      hpos (fun i _ hi => hall i hi)
    have hlast := connectFrom_perm_last port retries outcome (retries - 1) e
      (by omega) (by omega) ho
    constructor
    · rw [show (connect port retries outcome).result
          = (connectFrom port retries outcome (retries - 1)).result
          from hex.1, hlast]
    · rw [show (connect port retries outcome).connectedFlag
          = (connectFrom port retries outcome (retries - 1)).connectedFlag
          from hex.2, hlast]
  · have hex := connect_exhaust port retries outcome retries 0 (by omega)
      hpos (fun i _ hi => hall i hi)
    have hlast := connectFrom_other_last port retries outcome (retries - 1) e
      (by omega) (by omega) ho
    rw [show (connect port retries outcome).result
        = (connectFrom port retries outcome (retries - 1)).result
        from hex.1, hlast]
  · obtain ⟨hr, ha⟩ := connect_first_success port retries outcome retries 0
      (by omega) k (by omega) hk hs (fun i _ hi => hall i hi)
    exact ⟨hr, by simpa using ha⟩

/-- Witness for C9: three all-permission-failing attempts produce the
diagnostic, and a success on the second of three attempts recovers from
the first failure locally. -/
theorem C9_connect_retry_witness :
    ((connect "COM3" 3 (fun _ => AttemptOutcome.permError "denied")).result
        = some (false, permDiagnostic "COM3")
      ∧ (connect "COM3" 3
          (fun _ => AttemptOutcome.permError "denied")).connectedFlag
        = some false)
    ∧ ((connect "COM3" 3 (fun n => if n = 1 then AttemptOutcome.success
          else AttemptOutcome.otherError "boom")).result
        = some (true, "Connected successfully")
      ∧ (connect "COM3" 3 (fun n => if n = 1 then AttemptOutcome.success
          else AttemptOutcome.otherError "boom")).attempts = 1 + 1) :=
  ⟨(C9_connect_retry "COM3" 3
      (fun _ => AttemptOutcome.permError "denied")).2.2.1 "denied"
      (fun i _ => rfl) (by norm_num) rfl,
   (C9_connect_retry "COM3" 3 (fun n => if n = 1 then AttemptOutcome.success
      else AttemptOutcome.otherError "boom")).2.2.2.2 1 (by norm_num) rfl
      (fun i hi => by
        have h0 : i = 0 := by omega
        subst h0
        rfl)⟩

end DroneFix
